import Mathlib

/-! Shallow embedding of the `nasaApi` FastAPI application (chatbot, summarize and
dashboard flows) and proofs about its behaviour.

External collaborators (the sentence-transformer encoder, the Pinecone index, the
Gemini chat session and the Groq completion client) are modelled as oracle
functions passed in as parameters; a call that may raise a Python exception is an
oracle returning `Except String α`, the `String` being the rendering of the
exception.  Python dict/list/str values that flow through the endpoints are
modelled by the inductive type `PyVal`.  Every service function additionally
returns the list of external calls it issued, so that "call X is never attempted"
is a statement about that list. -/

namespace NasaApi

/-- Model of a Python JSON-like value as it appears in this code base:
strings, lists and string-keyed dicts. -/
inductive PyVal where
  | str : String → PyVal
  | list : List PyVal → PyVal
  | dict : List (String × PyVal) → PyVal

/-- True exactly on `PyVal.str` values; used to state that a returned value
is (or is not) a Python `str`. -/
def PyVal.isStr : PyVal → Bool
  | PyVal.str _ => true
  | _ => false

/-- Model of Python `str.strip()`: drop whitespace from both ends. -/
def pyStrip (s : String) : String :=
  String.mk (((s.data.dropWhile Char.isWhitespace).reverse.dropWhile Char.isWhitespace).reverse)

/-- Model of Python `str.upper()` (ASCII case mapping). -/
def pyUpper (s : String) : String :=
  String.mk (s.data.map Char.toUpper)

/-- Model of Python `in` on strings: `containsSub s pat` is true when `pat`
occurs as a contiguous substring of `s`. -/
def containsSub (s pat : String) : Bool :=
  (List.range (s.data.length + 1)).any (fun i => pat.data.isPrefixOf (s.data.drop i))

/-- Model of Python `a or b` for an optional string `a` (absent attribute is
`none`; both `None` and the empty string are falsy). -/
def pyOrStr (a : Option String) (b : String) : String :=
  match a with
  | some s => if s = "" then b else s
  | none => b

/-- Python truthiness of `metadata.get(key)`: a missing key (`None`) and the
empty string are falsy. -/
def pyTruthy : Option String → Bool
  | none => false
  | some s => !(s == "")

/-- Metadata carried by one Pinecone match, as read by
`RAGService.query` via `metadata.get('text')`, `metadata.get('title')` and
`metadata.get('authors', 'N/A')` (`src/app/services/rag_service.py`). -/
structure PaperMetadata where
  text : Option String
  title : Option String
  authors : Option String

/-- One match returned by the Pinecone index query; `match.get('metadata', {})`
with a missing key is modelled by all-`none` metadata. -/
structure RagMatch where
  metadata : PaperMetadata

/-- One deduplicated source record `{"title": ..., "authors": ...}` built by
`RAGService.query`. -/
structure SourcePaper where
  title : String
  authors : String

/-- The result-processing loop of `RAGService.query`
(`rag_service.py`, the `for match in matches` loop): walks the matches
accumulating `text_list`, `source_papers` and the `seen_papers` set (modelled
as the list of titles already appended, membership being the set test). -/
def RAGService.processLoop :
    List RagMatch → List String → List SourcePaper → List String →
    List String × List SourcePaper
  | [], text_list, source_papers, _ => (text_list, source_papers)
  | m :: rest, text_list, source_papers, seen_papers =>
    let metadata := m.metadata
    let text_list' :=
      if pyTruthy metadata.text then text_list ++ [metadata.text.getD ""] else text_list
    match metadata.title with
    | some title =>
      if title ≠ "" ∧ title ∉ seen_papers then
        RAGService.processLoop rest text_list'
          (source_papers ++ [⟨title, metadata.authors.getD "N/A"⟩])
          (seen_papers ++ [title])
      else
        RAGService.processLoop rest text_list' source_papers seen_papers
    | none => RAGService.processLoop rest text_list' source_papers seen_papers

/-- `RAGService.query` (`rag_service.py` lines 70-131).  `encode` models
`self.model.encode(...).tolist()` and `indexQuery` models
`self.index.query(...)` followed by `results.get('matches', [])`; the embedding
type `E` is abstract since nothing inspects it.  An empty query short-circuits
to `([], [])`; an exception from either external call (the `try` block) is
caught and also yields `([], [])`. -/
def RAGService.query {E : Type} (encode : String → Except String E)
    (indexQuery : E → Nat → Except String (List RagMatch))
    (user_query : String) (top_k : Nat) : List String × List SourcePaper :=
  if user_query = "" then ([], [])
  else
    match encode user_query with
    | Except.error _ => ([], [])
    | Except.ok query_embedding =>
      match indexQuery query_embedding top_k with
      | Except.error _ => ([], [])
      | Except.ok matchList => RAGService.processLoop matchList [] [] []

/-- Specification-side view of the titles the loop considers: the truthy
(present and non-empty) titles of the matches, in match order. -/
def truthyTitles (matchList : List RagMatch) : List String :=
  matchList.filterMap (fun m =>
    match m.metadata.title with
    | some t => if t = "" then none else some t
    | none => none)

/-- Specification-side first-seen deduplication, with an accumulator of titles
already seen: keeps the first occurrence of each string and drops later ones. -/
def dedupFirstAux : List String → List String → List String
  | _, [] => []
  | seen, t :: ts =>
    if t ∈ seen then dedupFirstAux seen ts
    else t :: dedupFirstAux (seen ++ [t]) ts

/-- First-seen deduplication of a list of strings (spec wording: "preserving
first-seen order"). -/
def dedupFirstSeen (l : List String) : List String := dedupFirstAux [] l

/-- The new source papers appended by the processing loop when starting from a
given `seen_papers` set: one paper per first occurrence of a truthy title. -/
def dedupNew : List String → List RagMatch → List SourcePaper
  | _, [] => []
  | seen, m :: rest =>
    match m.metadata.title with
    | some t =>
      if t ≠ "" ∧ t ∉ seen then
        ⟨t, m.metadata.authors.getD "N/A"⟩ :: dedupNew (seen ++ [t]) rest
      else dedupNew seen rest
    | none => dedupNew seen rest

/-- External calls the chatbot service can issue: the retrieval query
(`self.ragServe.query(query, top_k=100)`) and the chat-completion call
(`self.chat.send_message(prompt)`). -/
inductive ChatCall where
  | ragQuery : String → Nat → ChatCall
  | send : String → ChatCall

/-- True when the trace contains a chat-completion (`send_message`) call. -/
def sendCallIssued (calls : List ChatCall) : Bool :=
  calls.any (fun c =>
    match c with
    | ChatCall.send _ => true
    | _ => false)

/-- Model of the object returned by `self.chat.send_message`: the optional
`.text` and `.content` attributes and the `str(response)` rendering, as read by
`getattr(response, "text", None) or getattr(response, "content", None) or str(response)`. -/
structure GeminiResponse where
  text : Option String
  content : Option String
  toStr : String

/-- The attribute-extraction chain of `ChatbotService.get_concise_answer`:
prefer `.text`, fall back to `.content`, then to `str(response)` (Python `or`,
so `None` and the empty string both fall through). -/
def extractText (response : GeminiResponse) : String :=
  pyOrStr response.text (pyOrStr response.content response.toStr)

/-- The system prompt seeded into the chat session at construction time
(`ChatbotService.SYSTEM_PROMPT`). -/
def ChatbotService.SYSTEM_PROMPT : String :=
  "You are a friendly assistant that answers user questions concisely. " ++
  "Keep responses short and to the point unless the user asks for more detail. " ++
  "You may engage in light small talk and be empathetic, but always prioritize a clear, useful answer. " ++
  "When possible, use 1-3 short sentences or a short bullet list. " ++
  "Avoid long explanations and unnecessary background."

/-- One line of the formatted source list built by
`ChatbotService.get_concise_answer`:
`f"[\x7bi+1\x7d] Title: \x7b...\x7d, Authors: \x7b...\x7d\n"`.
`paper.get('title', 'N/A')` and `paper.get('authors', 'N/A')` always find their
keys on the records built by `RAGService.query`. -/
def formatSourceLine (i : Nat) (paper : SourcePaper) : String :=
  "[" ++ toString (i + 1) ++ "] Title: " ++ paper.title ++ ", Authors: " ++ paper.authors ++ "\n"

/-- The formatted source list as a list of numbered lines, one per source
paper, in order (the `for i, paper in enumerate(source_papers)` loop). -/
def formatSourceLines (source_papers : List SourcePaper) : List String :=
  (source_papers.enum).map (fun ip => formatSourceLine ip.1 ip.2)

/-- `sources_formatted`: the concatenation of the numbered source lines. -/
def formatSources (source_papers : List SourcePaper) : String :=
  String.join (formatSourceLines source_papers)

/-- The fact-extraction prompt assembled by `ChatbotService.get_concise_answer`
from the query, the formatted source list and the joined context string. -/
def ChatbotService.buildPrompt (query sources_formatted context_str : String) : String :=
  "**Role:** You are an AI **Fact Extraction Engine**. Your only task is to provide a direct and concise answer to the user\x27s query based on the provided text.\n\n" ++
  "**Core Task:** You MUST answer the user\x27s query by extracting the most relevant information from the **CONTEXT TO USE**. You are forbidden from using external knowledge.\n\n" ++
  "**Strict Rules:**\n" ++
  "1. **Brevity:** The main answer MUST be **a maximum of three sentences**.\n" ++
  "2. **Grounding:** Every fact in your answer must be directly supported by the **CONTEXT TO USE**.\n" ++
  "3. **Citation:** You MUST add a citation marker like \x60[1]\x60, \x60[2]\x60, etc., after the information you use, corresponding to the **AVAILABLE SOURCES**.\n" ++
  "4. **Missing Information:** If the context does not contain the answer, you MUST state: \x27The provided context does not contain the answer.\x27\n" ++
  "5. **References:** After your concise answer, include a \x27References\x27 section listing all cited sources.\n\n" ++
  "--- --- ---\n\n" ++
  "**USER QUERY:**\n" ++
  query ++ "\n\n" ++
  "**AVAILABLE SOURCES:**\n" ++
  sources_formatted ++ "\n" ++
  "**CONTEXT TO USE:**\n" ++
  context_str ++ "\n\n" ++
  "--- --- ---\n\n" ++
  "**Concise Answer (MAX 3 sentences):**"

/-- `ChatbotService.get_concise_answer` (`chatbot_service.py` lines 59-117),
with the RAG collaborator's externals (`encode`, `indexQuery`) and the chat
session's `send_message` passed as oracles.  Returns the Python value the
function returns together with the list of external calls issued.  Note the
no-context branch returns a dict, not a string, even though the function is
annotated `-> str`. -/
def ChatbotService.get_concise_answer {E : Type}
    (encode : String → Except String E)
    (indexQuery : E → Nat → Except String (List RagMatch))
    (send_message : String → Except String GeminiResponse)
    (query : String) : PyVal × List ChatCall :=
  if query = "" then (PyVal.str "Please provide a query.", [])
  else
    let retrieved := RAGService.query encode indexQuery query 100
    let retrieved_texts := retrieved.1
    let source_papers := retrieved.2
    let calls := [ChatCall.ragQuery query 100]
    if retrieved_texts = [] then
      let no_context_message :=
        "# No Information Found\n\nSorry, we could not find any relevant information for the topic: \x27"
          ++ query ++ "\x27. Please try a different query."
      (PyVal.dict [("summary", PyVal.str no_context_message),
                   ("visualization_data", PyVal.dict []),
                   ("sources", PyVal.list [])], calls)
    else
      let context_str := String.intercalate "\n\n---\n\n" retrieved_texts
      let sources_formatted := formatSources source_papers
      let prompt := ChatbotService.buildPrompt query sources_formatted context_str
      match send_message prompt with
      | Except.ok response =>
        (PyVal.str (pyStrip (extractText response)), calls ++ [ChatCall.send prompt])
      | Except.error e =>
        (PyVal.str ("An error occurred: " ++ e), calls ++ [ChatCall.send prompt])

/-- The response model of the chatbot endpoint (`ChatResponse(reply: str)`). -/
structure ChatResponse where
  reply : String

/-- `handle_chat_message` (`chatbot.py` lines 16-29), with the service call
passed as an oracle that may raise.  The bare `except` covers only the service
call; `ChatResponse(reply=reply)` sits outside it, and pydantic validation of
`reply: str` against a non-string value raises, modelled as
`Except.error "ValidationError"`. -/
def handle_chat_message (svc : String → Except String PyVal)
    (message : String) : Except String ChatResponse :=
  let reply : PyVal :=
    match svc message with
    | Except.ok v => v
    | Except.error _ => PyVal.str "Sorry, I\x27m having trouble processing your request right now."
  match reply with
  | PyVal.str s => Except.ok ⟨s⟩
  | _ => Except.error "ValidationError"

/-- External calls the summarize service can issue: the long-form generation
call (system prompt, user prompt), the fast visualization plausibility check,
and the chart-generation call (system prompt, user content). -/
inductive SummCall where
  | completion : String → String → SummCall
  | vizCheck : String → SummCall
  | chartGen : String → String → SummCall

/-- True when the trace contains a chart-generation call. -/
def chartCallIssued (calls : List SummCall) : Bool :=
  calls.any (fun c =>
    match c with
    | SummCall.chartGen _ _ => true
    | _ => false)

/-- `SummarizeService.SYSTEM_PROMPT`: the fixed system instruction for the
long-form generation call (a triple-quoted constant; the single `\n` escape it
contains renders as a newline). -/
def SummarizeService.SYSTEM_PROMPT : String :=
  "You are a world-class research analyst AI. Your task is to analyze a user\x27s query and generate a response as Markdown text only.\n\n" ++
  "Do not include any JSON, text outside of Markdown, or any additional explanations. Your entire output must be valid Markdown, ready to display in a document or dashboard.\n\n" ++
  "The value of the \"summary\" key must be a string containing a comprehensive, long-form summary in Markdown format. This summary must be structured with the following sections:\n" ++
  "- **Introduction:** Briefly introduce the topic and the scope of the analysis.\n" ++
  "- **Key Points:** Use bullet points to detail the core findings, focusing on aspects like scientific progress, knowledge gaps, and areas of consensus or disagreement.\n" ++
  "- **Conclusion and Actionable Insights:** Summarize the findings and provide clear, actionable insights for mission planners, researchers, or strategists.\n\n\n" ++
  "Note:\n" ++
  "**Make sure that you use <br> tag instead of \n everywhere.\n" ++
  "---\n" ++
  "**Example 1:**\n\n" ++
  "User Query: \"Impact of AI on climate change modeling\"\n\n" ++
  "AI Response:\n\n" ++
  "  \"# Summary: Impact of AI on Climate Change Modeling<br><br>**Introduction**<br>Artificial Intelligence (AI) is revolutionizing climate change modeling by enhancing predictive accuracy, processing vast datasets, and identifying complex patterns. This analysis explores the key scientific progress, existing knowledge gaps, and actionable insights for leveraging AI in climate research.<br><br>**Key Points**<br>* **Scientific Progress:** Machine learning models have significantly improved the resolution of climate simulations and the prediction of extreme weather events.<br>* **Knowledge Gaps:** A significant gap exists in understanding the \x27black box\x27 nature of some complex AI models, making it difficult to interpret their reasoning.<br>* **Areas of Disagreement:** Experts disagree on the extent to which AI can replace physics-based models, with many advocating for a hybrid approach.<br><br>**Conclusion and Actionable Insights**<br>AI presents a powerful tool for advancing climate change understanding. Actionable steps include prioritizing funding for open-source climate datasets, developing standards for AI model transparency, and fostering collaboration between research institutions.\"\n\n\n" ++
  "---\n" ++
  "**Example 2:**\n\n" ++
  "User Query: \"Latest advancements in battery technology for electric vehicles\"\n\n" ++
  "AI Response:\n" ++
  "  \"# Summary: Advancements in EV Battery Technology<br><br>**Introduction**<br>The rapid evolution of battery technology is a critical driver for the widespread adoption of electric vehicles (EVs). This summary covers recent breakthroughs, the consensus on future directions, and provides actionable insights for the automotive industry.<br><br>**Key Points**<br>* **Scientific Progress:** Solid-state batteries are emerging as a leading next-generation technology, promising higher energy density, improved safety, and faster charging times.<br>* **Areas of Consensus:** There is a strong consensus on reducing dependency on cobalt, a costly and ethically challenging material. Research is heavily focused on chemistries like lithium-iron-phosphate (LFP).<br>* **Knowledge Gaps:** Scaling the manufacturing of solid-state batteries to an industrial level remains a major hurdle.<br><br>**Conclusion and Actionable Insights**<br>The trajectory of battery technology is set towards safer, cheaper, and more energy-dense solutions. Actionable insights include securing supply chains for next-generation materials, investing in R&D for scalable manufacturing, and developing robust battery recycling programs.\"\n\n"

/-- `SummarizeService._get_visualization_system_prompt`: the fixed system
instruction for the chart-generation call (the triple-quoted source constant
keeps its leading newline and indentation). -/
def SummarizeService.get_visualization_system_prompt : String :=
  "\n" ++
  "        You are an expert data visualization assistant. Your task is to analyze a user\x27s query and a text summary to generate a JSON object suitable for Chart.js.\n\n" ++
  "        Instructions:\n" ++
  "        1. Read the user\x27s query and the provided summary carefully.\n" ++
  "        2. Identify the key data points, labels, and numerical values that can be visualized.\n" ++
  "        3. Choose the most appropriate chart type from: \x27bar\x27, \x27line\x27, \x27pie\x27, \x27doughnut\x27, \x27radar\x27, or \x27polarArea\x27. A \x27bar\x27 chart is often a good default choice for comparisons.\n" ++
  "        4. Construct a JSON object that strictly follows the Chart.js configuration format.\n" ++
  "        5. Your entire response MUST be a single, valid JSON object and nothing else. Do not include explanations, comments, or markdown formatting like \x60\x60\x60json.\n\n" ++
  "        The JSON object MUST have these top-level keys: \"type\", \"data\", \"options\".\n\n" ++
  "        - The \"data\" object must contain \"labels\" (an array of strings) and \"datasets\" (an array of objects).\n" ++
  "        - Each object in \"datasets\" must contain a \"label\" (a string) and \"data\" (an array of numbers).\n" ++
  "        - Generate appropriate RGBA colors for \x60backgroundColor\x60 and \x60borderColor\x60 for better visuals.\n" ++
  "        - Add a descriptive title to the chart under \x60options.plugins.title\x60.\n\n" ++
  "        Example of a valid response:\n" ++
  "        \x7b\n" ++
  "        \"type\": \"bar\",\n" ++
  "        \"data\": \x7b\n" ++
  "            \"labels\": [\"Q1\", \"Q2\", \"Q3\", \"Q4\"],\n" ++
  "            \"datasets\": [\x7b\n" ++
  "            \"label\": \"Sales 2025 (in millions)\",\n" ++
  "            \"data\": [120, 190, 150, 210],\n" ++
  "            \"backgroundColor\": \"rgba(54, 162, 235, 0.5)\",\n" ++
  "            \"borderColor\": \"rgba(54, 162, 235, 1)\",\n" ++
  "            \"borderWidth\": 1\n" ++
  "            \x7d]\n" ++
  "        \x7d,\n" ++
  "        \"options\": \x7b\n" ++
  "            \"responsive\": true,\n" ++
  "            \"plugins\": \x7b\n" ++
  "            \"legend\": \x7b\n" ++
  "                \"position\": \"top\"\n" ++
  "            \x7d,\n" ++
  "            \"title\": \x7b\n" ++
  "                \"display\": true,\n" ++
  "                \"text\": \"Quarterly Sales Performance\"\n" ++
  "            \x7d\n" ++
  "            \x7d,\n" ++
  "            \"scales\": \x7b\n" ++
  "            \"y\": \x7b\n" ++
  "                \"beginAtZero\": true\n" ++
  "            \x7d\n" ++
  "            \x7d\n" ++
  "        \x7d\n" ++
  "        \x7d\n" ++
  "        "

/-- The plausibility-check prompt assembled by
`SummarizeService._generate_visualization_data`. -/
def SummarizeService.buildCheckPrompt (query summary : String) : String :=
  "Does the user query and the provided summary contain topics like data, trends, numbers, " ++
  "comparisons, or entities that would be suitable for a data visualization? " ++
  "Respond with only \x27YES\x27 or \x27NO\x27.<br><br>" ++
  "Query: \x27" ++ query ++ "\x27<br><br>Summary: \x27" ++ summary ++ "\x27"

/-- `SummarizeService._generate_visualization_data` (`summarize_service.py`
lines 146-212), with the two Groq calls as oracles.  `vizCheckO` returns the
plausibility response\x27s message content; `chartGenO` covers the
chart-generation call together with `json.loads` of its content, so its error
case models both a raised API error and a `JSONDecodeError`.  Returns the
resulting dict together with the calls issued. -/
def SummarizeService.generate_visualization_data
    (vizCheckO : String → Except String String)
    (chartGenO : String → String → Except String PyVal)
    (query summary : String) : PyVal × List SummCall :=
  let check_prompt := SummarizeService.buildCheckPrompt query summary
  match vizCheckO check_prompt with
  | Except.error _ => (PyVal.dict [], [SummCall.vizCheck check_prompt])
  | Except.ok content =>
    let decision := pyUpper (pyStrip content)
    if containsSub decision "YES" = false then
      (PyVal.dict [], [SummCall.vizCheck check_prompt])
    else
      let system_prompt := SummarizeService.get_visualization_system_prompt
      let user_content := "Query: \x27" ++ query ++ "\x27<br><br>Summary: \x27" ++ summary ++ "\x27"
      match chartGenO system_prompt user_content with
      | Except.ok chart =>
        (chart, [SummCall.vizCheck check_prompt, SummCall.chartGen system_prompt user_content])
      | Except.error _ =>
        (PyVal.dict [], [SummCall.vizCheck check_prompt, SummCall.chartGen system_prompt user_content])

/-- The dict returned by `SummarizeService.generate_summary`:
`{"summary": ..., "visualization_data": ...}`. -/
structure SummaryResult where
  summary : String
  visualization_data : PyVal

/-- `SummarizeService.generate_summary` (`summarize_service.py` lines 214-232),
with the long-form generation call and the two visualization calls as oracles.
`complete` takes the system prompt and the user prompt and returns the message
content or raises.  The source\x27s inner `try/except json.JSONDecodeError`
around `summary_markdown = response_text` contains no JSON parse, so its
`except` branch is unreachable and `summary_markdown` is always
`response_text`.  The outer `except` converts any raised error into the
formatted fallback result. -/
def SummarizeService.generate_summary
    (complete : String → String → Except String String)
    (vizCheckO : String → Except String String)
    (chartGenO : String → String → Except String PyVal)
    (query : String) : SummaryResult × List SummCall :=
  let user_prompt := "Please perform a detailed analysis on the following topic: \x27" ++ query ++ "\x27"
  match complete SummarizeService.SYSTEM_PROMPT user_prompt with
  | Except.error e =>
    let error_message := "# Error<br><br>Sorry, the summary could not be generated. **Details:** " ++ e
    (⟨error_message, PyVal.dict []⟩, [SummCall.completion SummarizeService.SYSTEM_PROMPT user_prompt])
  | Except.ok response_text =>
    let summary_markdown := response_text
    let viz := SummarizeService.generate_visualization_data vizCheckO chartGenO query summary_markdown
    (⟨summary_markdown, viz.1⟩, SummCall.completion SummarizeService.SYSTEM_PROMPT user_prompt :: viz.2)

/-- The response model of the summarize endpoint
(`SummarizeResponse(summary: str, visualization_data: dict)`). -/
structure SummarizeResponse where
  summary : String
  visualization_data : PyVal

/-- `create_summary` (`summarize.py` lines 20-33): calls the service and
repacks `result.get("summary", "")` and
`result.get("visualization_data", {})` into the response model.  The service
result always carries both keys, so the defaults are never used. -/
def create_summary
    (complete : String → String → Except String String)
    (vizCheckO : String → Except String String)
    (chartGenO : String → String → Except String PyVal)
    (text : String) : SummarizeResponse :=
  let result := (SummarizeService.generate_summary complete vizCheckO chartGenO text).1
  ⟨result.summary, result.visualization_data⟩

/-- The response model of the dashboard endpoint. -/
structure DashboardData where
  total_requests : Int
  active_users : Int
  model_performance : List (String × ℚ)

/-- `get_dashboard_data` (`dashboard.py` lines 15-33): returns the fixed mocked
structure; the request carries no parameters, modelled by a `Unit` argument.
The float literals are modelled as the rationals they denote. -/
def get_dashboard_data (_u : Unit) : DashboardData :=
  ⟨1024, 128, [("chatbot_accuracy", 0.94), ("summarizer_rouge_score", 0.88)]⟩

/-- The processing loop only ever appends to `source_papers`: its source-paper
component is the starting accumulator followed by the new papers described by
`dedupNew`. -/
theorem processLoop_snd (ms : List RagMatch) : ∀ text_list source_papers seen,
    (RAGService.processLoop ms text_list source_papers seen).2
      = source_papers ++ dedupNew seen ms := by
  induction ms with
  | nil => intro text_list source_papers seen; simp [RAGService.processLoop, dedupNew]
  | cons m rest ih =>
    intro text_list source_papers seen
    simp only [RAGService.processLoop, dedupNew]
    cases hm : m.metadata.title with
    | none => simp [ih]
    | some t =>
      by_cases ht : t ≠ "" ∧ t ∉ seen
      · simp [ht, ih, List.append_assoc]
      · simp [ht, ih]

/-- The titles of the papers appended by the loop are exactly the first-seen
deduplication of the truthy titles of the matches, relative to the titles
already seen. -/
theorem dedupNew_titles (ms : List RagMatch) : ∀ seen,
    (dedupNew seen ms).map SourcePaper.title = dedupFirstAux seen (truthyTitles ms) := by
  induction ms with
  | nil => intro seen; simp [dedupNew, truthyTitles, dedupFirstAux]
  | cons m rest ih =>
    intro seen
    cases hm : m.metadata.title with
    | none => simp [dedupNew, truthyTitles, List.filterMap_cons, hm, ih]
    | some t =>
      by_cases hemp : t = ""
      · subst hemp
        simp [dedupNew, truthyTitles, List.filterMap_cons, hm, ih]
      · by_cases hseen : t ∈ seen
        · have hno : ¬ (t ≠ "" ∧ t ∉ seen) := by simp [hseen]
          simp [dedupNew, truthyTitles, List.filterMap_cons, hm, hemp, hno, dedupFirstAux, hseen, ih]
        · have hyes : t ≠ "" ∧ t ∉ seen := ⟨hemp, hseen⟩
          simp [dedupNew, truthyTitles, List.filterMap_cons, hm, hemp, hyes, dedupFirstAux, hseen, ih]

/-- Membership in the first-seen deduplication: the kept strings are exactly
the members of the input that were not already seen. -/
theorem mem_dedupFirstAux (l : List String) : ∀ seen t,
    t ∈ dedupFirstAux seen l ↔ t ∈ l ∧ t ∉ seen := by
  induction l with
  | nil => intro seen t; simp [dedupFirstAux]
  | cons a as ih =>
    intro seen t
    by_cases ha : a ∈ seen
    · rw [dedupFirstAux, if_pos ha, ih]
      constructor
      · rintro ⟨h1, h2⟩; exact ⟨List.mem_cons_of_mem a h1, h2⟩
      · rintro ⟨h1, h2⟩
        rcases List.mem_cons.mp h1 with h1 | h1
        · exact absurd (h1 ▸ ha) h2
        · exact ⟨h1, h2⟩
    · rw [dedupFirstAux, if_neg ha]
      constructor
      · intro hmem
        rcases List.mem_cons.mp hmem with h1 | h1
        · exact ⟨h1 ▸ List.mem_cons_self a as, h1 ▸ ha⟩
        · have := (ih (seen ++ [a]) t).mp h1
          refine ⟨List.mem_cons_of_mem a this.1, fun hc => this.2 ?_⟩
          exact List.mem_append_left [a] hc
      · rintro ⟨h1, h2⟩
        rcases List.mem_cons.mp h1 with h1 | h1
        · exact h1 ▸ List.mem_cons_self a _
        · by_cases hta : t = a
          · exact hta ▸ List.mem_cons_self a _
          · refine List.mem_cons_of_mem a ((ih (seen ++ [a]) t).mpr ⟨h1, fun hc => ?_⟩)
            rcases List.mem_append.mp hc with hc | hc
            · exact h2 hc
            · exact hta (List.mem_singleton.mp hc)

/-- The first-seen deduplication never keeps a string twice. -/
theorem nodup_dedupFirstAux (l : List String) : ∀ seen,
    (dedupFirstAux seen l).Nodup := by
  induction l with
  | nil => intro seen; simp [dedupFirstAux]
  | cons a as ih =>
    intro seen
    by_cases ha : a ∈ seen
    · rw [dedupFirstAux, if_pos ha]; exact ih seen
    · rw [dedupFirstAux, if_neg ha]
      refine List.nodup_cons.mpr ⟨fun hmem => ?_, ih (seen ++ [a])⟩
      have := (mem_dedupFirstAux as (seen ++ [a]) a).mp hmem
      exact this.2 (List.mem_append_right seen (List.mem_singleton.mpr rfl))

/-- The error fallback summary built by `generate_summary` is never the empty
string, whatever the rendered exception is. -/
theorem error_fallback_ne_empty (e : String) :
    "# Error<br><br>Sorry, the summary could not be generated. **Details:** " ++ e ≠ "" := by
  intro h
  have h2 := congrArg String.data h
  rw [show ∀ a b : String, (a ++ b).data = a.data ++ b.data from fun a b =>
    match a, b with | ⟨_⟩, ⟨_⟩ => rfl] at h2
  have h3 := (List.append_eq_nil.mp h2).1
  exact absurd h3 (by decide)

/-- The chart-generation call of `generate_visualization_data` is recorded in
the trace exactly when the stripped, uppercased plausibility response contains
the substring "YES". -/
theorem chartIssued_eq_containsSub
    (vizResp : String) (chartGenO : String → String → Except String PyVal) (q s : String) :
    chartCallIssued
        (SummarizeService.generate_visualization_data (fun _ => Except.ok vizResp) chartGenO q s).2
      = containsSub (pyUpper (pyStrip vizResp)) "YES" := by
  by_cases h : containsSub (pyUpper (pyStrip vizResp)) "YES" = false
  · simp [SummarizeService.generate_visualization_data, h, chartCallIssued]
  · have h' : containsSub (pyUpper (pyStrip vizResp)) "YES" = true := by
      cases hb : containsSub (pyUpper (pyStrip vizResp)) "YES"
      · exact absurd hb h
      · rfl
    simp only [SummarizeService.generate_visualization_data, h']
    cases chartGenO SummarizeService.get_visualization_system_prompt
        ("Query: \x27" ++ q ++ "\x27<br><br>Summary: \x27" ++ s ++ "\x27") <;>
      simp [chartCallIssued]

/-- Claim C1: the spec says the chat flow always produces a string reply, so
the endpoint always yields an object of shape (reply: string).  The code
violates this on the no-passages path: evaluated at a non-empty query for
which retrieval yields zero passages, `get_concise_answer` returns a dict
(against its own `-> str` annotation), and the endpoint fails response
validation instead of producing a reply object. -/
theorem chat_no_passages_reply_is_dict_not_string :
    (ChatbotService.get_concise_answer (fun _ => Except.ok ()) (fun _ _ => Except.ok [])
        (fun _ => Except.error "unused") "microgravity").1
      = PyVal.dict [("summary", PyVal.str ("# No Information Found\n\nSorry, we could not find any relevant information for the topic: \x27microgravity\x27. Please try a different query.")),
                    ("visualization_data", PyVal.dict []), ("sources", PyVal.list [])] ∧
    PyVal.isStr (ChatbotService.get_concise_answer (fun _ => Except.ok ()) (fun _ _ => Except.ok [])
        (fun _ => Except.error "unused") "microgravity").1 = false ∧
    handle_chat_message (fun m => Except.ok ((ChatbotService.get_concise_answer (fun _ => Except.ok ())
        (fun _ _ => Except.ok []) (fun _ => Except.error "unused") m).1)) "microgravity"
      = Except.error "ValidationError" :=
  ⟨rfl, rfl, rfl⟩

/-- Claim C2: the spec says that on a non-empty message with zero retrieved
passages the chat flow returns the fixed no-information message as its reply
and attempts no chat-completion call.  Evaluated at such an input, the code
indeed attempts no chat-completion call, but it wraps the message in a dict
(with empty visualization data and sources) instead of returning it as the
string reply. -/
theorem chat_no_passages_no_completion_call :
    (ChatbotService.get_concise_answer (fun _ => Except.ok ()) (fun _ _ => Except.ok [])
        (fun _ => Except.error "unused") "mars dust").1
      = PyVal.dict [("summary", PyVal.str ("# No Information Found\n\nSorry, we could not find any relevant information for the topic: \x27mars dust\x27. Please try a different query.")),
                    ("visualization_data", PyVal.dict []), ("sources", PyVal.list [])] ∧
    sendCallIssued ((ChatbotService.get_concise_answer (fun _ => Except.ok ()) (fun _ _ => Except.ok [])
        (fun _ => Except.error "unused") "mars dust").2) = false ∧
    PyVal.isStr (ChatbotService.get_concise_answer (fun _ => Except.ok ()) (fun _ _ => Except.ok [])
        (fun _ => Except.error "unused") "mars dust").1 = false :=
  ⟨rfl, rfl, rfl⟩

/-- Claim C3: if the long-form generation call raises, `generate_summary`
swallows the exception and returns the formatted fallback summary (never
empty) with empty visualization data, and `create_summary` repacks exactly
that result, so the endpoint answers normally instead of propagating a 500. -/
theorem summarize_provider_error_fallback
    (complete : String → String → Except String String)
    (vizCheckO : String → Except String String)
    (chartGenO : String → String → Except String PyVal)
    (q e : String)
    (h : ∀ sys usr, complete sys usr = Except.error e) :
    (SummarizeService.generate_summary complete vizCheckO chartGenO q).1.summary
      = "# Error<br><br>Sorry, the summary could not be generated. **Details:** " ++ e ∧
    (SummarizeService.generate_summary complete vizCheckO chartGenO q).1.summary ≠ "" ∧
    (SummarizeService.generate_summary complete vizCheckO chartGenO q).1.visualization_data
      = PyVal.dict [] ∧
    create_summary complete vizCheckO chartGenO q
      = ⟨"# Error<br><br>Sorry, the summary could not be generated. **Details:** " ++ e,
         PyVal.dict []⟩ := by
  have hg : SummarizeService.generate_summary complete vizCheckO chartGenO q
      = (⟨"# Error<br><br>Sorry, the summary could not be generated. **Details:** " ++ e,
          PyVal.dict []⟩,
         [SummCall.completion SummarizeService.SYSTEM_PROMPT
           ("Please perform a detailed analysis on the following topic: \x27" ++ q ++ "\x27")]) := by
    simp [SummarizeService.generate_summary, h]
  refine ⟨by rw [hg], ?_, by rw [hg], by simp [create_summary, hg]⟩
  rw [hg]
  exact error_fallback_ne_empty e

/-- Claim C3 witness: a concrete provider failure, evaluated. -/
theorem summarize_provider_error_fallback_witness :
    (SummarizeService.generate_summary (fun _ _ => Except.error "boom") (fun _ => Except.ok "NO")
        (fun _ _ => Except.ok (PyVal.dict [])) "soil").1.summary
      = "# Error<br><br>Sorry, the summary could not be generated. **Details:** boom" ∧
    create_summary (fun _ _ => Except.error "boom") (fun _ => Except.ok "NO")
        (fun _ _ => Except.ok (PyVal.dict [])) "soil"
      = ⟨"# Error<br><br>Sorry, the summary could not be generated. **Details:** boom",
         PyVal.dict []⟩ :=
  ⟨(summarize_provider_error_fallback (fun _ _ => Except.error "boom") (fun _ => Except.ok "NO")
      (fun _ _ => Except.ok (PyVal.dict [])) "soil" "boom" (fun _ _ => rfl)).1,
   (summarize_provider_error_fallback (fun _ _ => Except.error "boom") (fun _ => Except.ok "NO")
      (fun _ _ => Except.ok (PyVal.dict [])) "soil" "boom" (fun _ _ => rfl)).2.2.2⟩

/-- Claim C4 counterexample: the plausibility response "yes" is not a string
containing "YES", yet the chart-generation call is issued and the returned
visualization data is the chart, not the empty object — the check normalises
with strip+upper first. -/
theorem viz_literal_yes_check_counterexample :
    containsSub "yes" "YES" = false ∧
    (SummarizeService.generate_visualization_data (fun _ => Except.ok "yes")
        (fun _ _ => Except.ok (PyVal.dict [("type", PyVal.str "bar")])) "q" "s").1
      = PyVal.dict [("type", PyVal.str "bar")] ∧
    chartCallIssued ((SummarizeService.generate_visualization_data (fun _ => Except.ok "yes")
        (fun _ _ => Except.ok (PyVal.dict [("type", PyVal.str "bar")])) "q" "s").2) = true :=
  ⟨by decide, rfl, rfl⟩

/-- Claim C4 as amended: when the stripped, uppercased plausibility response
does not contain "YES", `generate_visualization_data` returns the empty object
and the chart-generation call is never issued. -/
theorem viz_check_without_yes_returns_empty
    (vizResp : String)
    (chartGenO : String → String → Except String PyVal) (q s : String)
    (h : containsSub (pyUpper (pyStrip vizResp)) "YES" = false) :
    (SummarizeService.generate_visualization_data (fun _ => Except.ok vizResp) chartGenO q s).1
      = PyVal.dict [] ∧
    chartCallIssued
        ((SummarizeService.generate_visualization_data (fun _ => Except.ok vizResp) chartGenO q s).2)
      = false := by
  constructor
  · simp [SummarizeService.generate_visualization_data, h]
  · simp [SummarizeService.generate_visualization_data, h, chartCallIssued]

/-- Claim C4 witness: a concrete "NO" response, evaluated. -/
theorem viz_check_without_yes_returns_empty_witness :
    (SummarizeService.generate_visualization_data (fun _ => Except.ok "NO")
        (fun _ _ => Except.ok (PyVal.dict [("type", PyVal.str "bar")])) "q2" "s2").1
      = PyVal.dict [] ∧
    chartCallIssued
        ((SummarizeService.generate_visualization_data (fun _ => Except.ok "NO")
          (fun _ _ => Except.ok (PyVal.dict [("type", PyVal.str "bar")])) "q2" "s2").2)
      = false :=
  viz_check_without_yes_returns_empty "NO"
    (fun _ _ => Except.ok (PyVal.dict [("type", PyVal.str "bar")])) "q2" "s2" (by decide)

/-- Claim C5: on a successful retrieval, the titles of the deduplicated source
list are exactly the first-seen deduplication of the truthy titles of the
matches (so one entry per distinct title, in first-seen order, with no
repeats), and the formatted source list has exactly one numbered line per kept
source. -/
theorem rag_query_dedup_sources {E : Type}
    (encode : String → Except String E)
    (indexQuery : E → Nat → Except String (List RagMatch))
    (q : String) (k : Nat) (emb : E) (matchList : List RagMatch)
    (hq : q ≠ "") (he : encode q = Except.ok emb)
    (hi : indexQuery emb k = Except.ok matchList) :
    ((RAGService.query encode indexQuery q k).2).map SourcePaper.title
      = dedupFirstSeen (truthyTitles matchList) ∧
    (((RAGService.query encode indexQuery q k).2).map SourcePaper.title).Nodup ∧
    (∀ t, t ∈ ((RAGService.query encode indexQuery q k).2).map SourcePaper.title ↔
      t ∈ truthyTitles matchList) ∧
    (formatSourceLines ((RAGService.query encode indexQuery q k).2)).length
      = (dedupFirstSeen (truthyTitles matchList)).length := by
  have hpap : (RAGService.query encode indexQuery q k).2 = dedupNew [] matchList := by
    simp [RAGService.query, hq, he, hi, processLoop_snd]
  have htitles : ((RAGService.query encode indexQuery q k).2).map SourcePaper.title
      = dedupFirstSeen (truthyTitles matchList) := by
    rw [hpap, dedupNew_titles]; rfl
  refine ⟨htitles, ?_, ?_, ?_⟩
  · rw [htitles]; exact nodup_dedupFirstAux _ []
  · intro t
    rw [htitles]
    unfold dedupFirstSeen
    rw [mem_dedupFirstAux]
    simp
  · have hlen : (formatSourceLines ((RAGService.query encode indexQuery q k).2)).length
        = ((RAGService.query encode indexQuery q k).2).length := by
      simp [formatSourceLines]
    rw [hlen, ← htitles, List.length_map]

/-- Claim C5 witness: two matches sharing the title "Paper A" followed by one
titled "Paper B" yield exactly one source entry per distinct title, in
first-seen order. -/
theorem rag_query_dedup_sources_witness :
    ((RAGService.query (fun _ => Except.ok ())
        (fun _ _ => Except.ok
          [⟨⟨some "t1", some "Paper A", some "X"⟩⟩,
           ⟨⟨some "t2", some "Paper A", some "Y"⟩⟩,
           ⟨⟨some "t3", some "Paper B", none⟩⟩]) "q" 5).2).map SourcePaper.title
      = ["Paper A", "Paper B"] :=
  (rag_query_dedup_sources (fun _ => Except.ok ())
      (fun _ _ => Except.ok
        [⟨⟨some "t1", some "Paper A", some "X"⟩⟩,
         ⟨⟨some "t2", some "Paper A", some "Y"⟩⟩,
         ⟨⟨some "t3", some "Paper B", none⟩⟩]) "q" 5 ()
      [⟨⟨some "t1", some "Paper A", some "X"⟩⟩,
       ⟨⟨some "t2", some "Paper A", some "Y"⟩⟩,
       ⟨⟨some "t3", some "Paper B", none⟩⟩]
      (by decide) rfl rfl).1.trans rfl

/-- Claim C6: `RAGService.query` returns the pair of empty lists on the empty
query, and likewise when the embedding call or the index query raises; the
exception is absorbed, not propagated. -/
theorem rag_query_empty_or_error_returns_empty {E : Type}
    (encode : String → Except String E)
    (indexQuery : E → Nat → Except String (List RagMatch)) (top_k : Nat) :
    RAGService.query encode indexQuery "" top_k = ([], []) ∧
    (∀ q e, encode q = Except.error e →
      RAGService.query encode indexQuery q top_k = ([], [])) ∧
    (∀ q emb e, encode q = Except.ok emb → indexQuery emb top_k = Except.error e →
      RAGService.query encode indexQuery q top_k = ([], [])) := by
  refine ⟨by simp [RAGService.query], ?_, ?_⟩
  · intro q e h
    by_cases hq : q = ""
    · simp [RAGService.query, hq]
    · simp [RAGService.query, hq, h]
  · intro q emb e he hi
    by_cases hq : q = ""
    · simp [RAGService.query, hq]
    · simp [RAGService.query, hq, he, hi]

/-- Claim C6 witness: the empty query, a failing encoder and a failing index
query, each evaluated concretely. -/
theorem rag_query_empty_or_error_returns_empty_witness :
    RAGService.query (fun _ => Except.ok ())
        (fun _ _ => Except.ok [⟨⟨some "t", some "T", none⟩⟩]) "" 3 = ([], []) ∧
    RAGService.query (fun _ => (Except.error "encoder down" : Except String Unit))
        (fun _ _ => Except.ok []) "q" 7 = ([], []) ∧
    RAGService.query (fun _ => Except.ok ())
        (fun _ _ => (Except.error "index down" : Except String (List RagMatch))) "q" 7
      = ([], []) :=
  ⟨(rag_query_empty_or_error_returns_empty (fun _ => Except.ok ())
      (fun _ _ => Except.ok [⟨⟨some "t", some "T", none⟩⟩]) 3).1,
   (rag_query_empty_or_error_returns_empty (fun _ => (Except.error "encoder down" : Except String Unit))
      (fun _ _ => Except.ok []) 7).2.1 "q" "encoder down" rfl,
   (rag_query_empty_or_error_returns_empty (fun _ => Except.ok ())
      (fun _ _ => (Except.error "index down" : Except String (List RagMatch))) 7).2.2
      "q" () "index down" rfl rfl⟩

/-- Claim C7: on the empty chat message the service immediately returns the
fixed prompt-for-input string with an empty call trace (so neither the
retrieval query nor the chat-completion call is attempted), and the endpoint
wraps that string into its reply. -/
theorem chat_empty_message_fixed_reply {E : Type}
    (encode : String → Except String E)
    (indexQuery : E → Nat → Except String (List RagMatch))
    (send_message : String → Except String GeminiResponse) :
    ChatbotService.get_concise_answer encode indexQuery send_message ""
      = (PyVal.str "Please provide a query.", []) ∧
    handle_chat_message
        (fun m => Except.ok ((ChatbotService.get_concise_answer encode indexQuery send_message m).1))
        ""
      = Except.ok ⟨"Please provide a query."⟩ :=
  ⟨rfl, rfl⟩

/-- Claim C8: the dashboard endpoint returns the fixed literal structure, so
any two calls return identical output. -/
theorem dashboard_fixed_and_deterministic :
    get_dashboard_data ()
      = ⟨1024, 128, [("chatbot_accuracy", 0.94), ("summarizer_rouge_score", 0.88)]⟩ ∧
    ∀ u v : Unit, get_dashboard_data u = get_dashboard_data v :=
  ⟨rfl, fun _ _ => rfl⟩

/-- Claim C9: given a plausibility-check response, the chart-generation call is
issued exactly when the stripped, uppercased response contains "YES"; in
particular the lower- and mixed-case responses "yes" and "Yes" trigger chart
generation. -/
theorem viz_chart_call_iff_upper_yes
    (vizResp : String) (chartGenO : String → String → Except String PyVal) (q s : String) :
    chartCallIssued
        ((SummarizeService.generate_visualization_data (fun _ => Except.ok vizResp) chartGenO q s).2)
      = containsSub (pyUpper (pyStrip vizResp)) "YES" ∧
    chartCallIssued
        ((SummarizeService.generate_visualization_data (fun _ => Except.ok "yes") chartGenO q s).2)
      = true ∧
    chartCallIssued
        ((SummarizeService.generate_visualization_data (fun _ => Except.ok "Yes") chartGenO q s).2)
      = true :=
  ⟨chartIssued_eq_containsSub vizResp chartGenO q s,
   by rw [chartIssued_eq_containsSub]; decide,
   by rw [chartIssued_eq_containsSub]; decide⟩

/-- Claim C10: if the service call raises, the chat endpoint catches the
exception and replies with the fixed apology string; the catch covers only the
service call, so a non-string service result still reaches (and fails)
response validation. -/
theorem chat_endpoint_catches_service_error
    (svc : String → Except String PyVal) (message : String) :
    (∀ e, svc message = Except.error e →
      handle_chat_message svc message
        = Except.ok ⟨"Sorry, I\x27m having trouble processing your request right now."⟩) ∧
    (∀ kvs, svc message = Except.ok (PyVal.dict kvs) →
      handle_chat_message svc message = Except.error "ValidationError") ∧
    (∀ reply, svc message = Except.ok (PyVal.str reply) →
      handle_chat_message svc message = Except.ok ⟨reply⟩) := by
  refine ⟨?_, ?_, ?_⟩
  · intro e h; simp [handle_chat_message, h]
  · intro kvs h; simp [handle_chat_message, h]
  · intro reply h; simp [handle_chat_message, h]

/-- Claim C10 witness: a concretely failing service call, evaluated. -/
theorem chat_endpoint_catches_service_error_witness :
    handle_chat_message (fun _ => Except.error "boom") "hello"
      = Except.ok ⟨"Sorry, I\x27m having trouble processing your request right now."⟩ :=
  (chat_endpoint_catches_service_error (fun _ => Except.error "boom") "hello").1 "boom" rfl

end NasaApi
